import Mathlib

/-!
Shallow embedding of `src/lib/ApaleoConnectAdapter.ts` from the
`pms-connect-apaleo` repository, together with theorems settling the
specification claims about it.

Modelling conventions:

* A JavaScript object used as a query-parameter bag is modelled as a total
  function `String → Option String` (`Obj`); the object-spread expression
  `{...params, propertyId: hotelId}` becomes the function that answers
  `hotelId` at key `"propertyId"` and defers to `params` elsewhere, which is
  exactly the override semantics of a later key in a spread literal.
* Each resource method of the adapter is a pure function from the arguments
  plus the vendor response payload to the pair
  `(the HTTP request it issues, the value it returns)`; fallible paths return
  `Except String …`.  The vendor response-body shapes from
  `ApaleoInterfaces.ts` (not under `src/`) are modelled generically: a list
  payload keeps its field names from the source (`properties`, `unitGroups`,
  `ratePlans`, `rates`, `ageCategories`, `promoCodes`, `count`), with the
  element type a type parameter, since the claims only concern the list/count
  structure.
* The per-resource mapper functions from `utils.ts` (not under `src/`) are
  opaque function parameters (`toConnectedHotel`, `toConnectedRatePaln`, …):
  the claims quantify over them.
* The nullable strings of `ApaleoConnectAdaptorOptions` are `Option String`,
  with `none` standing for `null`/`undefined`; JavaScript string falsiness
  (`!x` true exactly for `null`, `undefined` and `""`) is `strFalsy`.
-/

namespace PmsConnectApaleo

/-- JavaScript falsiness of a nullable string: `!x` is `true` exactly when
`x` is `null`/`undefined` or the empty string. -/
def strFalsy : Option String → Bool
  | none => true
  | some s => s == ""

/-- A JavaScript object used as a free-form query-parameter bag:
key ↦ value, `none` for an absent key. -/
def Obj : Type := String → Option String

/-- The empty parameter bag `{}`. -/
def emptyObj : Obj := fun _ => none

/-- The spread `{...params, k: v}`: the later explicit key overrides any
caller-supplied entry for the same key. -/
def setKey (params : Obj) (k v : String) : Obj :=
  fun key => if key = k then some v else params key

/-- The HTTP request an adapter method hands to `this.http.get`:
the path and the query-parameter object (empty when the source passes no
`{ params }` options). -/
structure Request where
  path : String
  params : Obj

/-- `IConnected_ListOf<T>` from `@cord-travel/pms-connect` models:
an ordered page of canonical entities plus the vendor-reported total. -/
structure IConnected_ListOf (α : Type) where
  data : List α
  count : Nat
  deriving Repr

/-- Vendor list payload of `/inventory/v1/properties`
(`IApaleoPropertyList`), element type generic. -/
structure IApaleoPropertyList (π : Type) where
  properties : List π
  count : Nat

/-- Vendor list payload of `/inventory/v1/unit-groups`
(`IApaleoUnitGroupList`), element type generic. -/
structure IApaleoUnitGroupList (υ : Type) where
  unitGroups : List υ
  count : Nat

/-- Vendor list payload of `/rateplan/v1/rate-plans`
(`IApaleoRatePlanList`), element type generic. -/
structure IApaleoRatePlanList (ρ : Type) where
  ratePlans : List ρ
  count : Nat

/-- Vendor list payload of `/rateplan/v1/rate-plans/{id}/rates`
(`IApaleoRateList`), element type generic. -/
structure IApaleoRateList (ρ : Type) where
  rates : List ρ
  count : Nat

/-- Vendor list payload of `/settings/v1/age-categories`
(`IApaleoAgeCategoryList`), element type generic. -/
structure IApaleoAgeCategoryList (α : Type) where
  ageCategories : List α
  count : Nat

/-- One element of the vendor promo-code list: the code and the optional
`relatedRateplanIds` array (`none` models an absent/null field). -/
structure IApaleoPromoCode where
  code : String
  relatedRateplanIds : Option (List String)
  deriving Repr, DecidableEq

/-- Vendor list payload of `/rateplan/v1/promo-codes/codes`
(`IApaleoPromoCodeList`). -/
structure IApaleoPromoCodeList where
  promoCodes : List IApaleoPromoCode
  count : Nat
  deriving Repr

/-- Canonical promo code (`IConnected_PromoCode`): the shape built inline in
`getPromoCodes`. -/
structure IConnected_PromoCode where
  code : String
  related_rateplan_ids : List String
  deriving Repr, DecidableEq

/-- The `rates_range` sub-object of a canonical rate plan, carrying the
date range used by `getRatesByRatePlan`. -/
structure RatesRange where
  «from» : String
  «to» : String
  deriving Repr, DecidableEq

/-- The fields of `IConnected_RatePlan` / `IConnected_RatePlanItem` that
`getRatesByRatePlan` reads: the id and the optional `rates_range`
(`none` models a rate plan lacking the range, on which the source's
`ratePlan.rates_range.from` access throws). -/
structure IConnected_RatePlanLike where
  id : String
  rates_range : Option RatesRange
  deriving Repr, DecidableEq

/-! ## Adapter construction (`ApaleoConnectAdaptor.constructor`) -/

/-- The constructor options record (`ApaleoConnectAdaptorOptions`); `σ` is
the type of the optional token store. -/
structure ApaleoConnectAdaptorOptions (σ : Type) where
  refresh_token : String
  access_token : Option String := none
  client_id : Option String
  client_secret : Option String
  redirect_uri : Option String
  tokenStore : Option σ := none

/-- The data captured by the `generteAccessToken` closure the constructor
passes to the base class: the credentials and refresh token it would send to
the token endpoint if it were ever invoked. -/
structure GenerteAccessTokenConfig where
  client_secret : String
  client_id : String
  redirect_uri : Option String
  refresh : String
  deriving Repr, DecidableEq

/-- `Config.API_BASE_URL` from `ApaleoConfig.ts` (a file of the repository
not under `src/`); its concrete value is irrelevant to every claim, only
that the constructor stores it. -/
def API_BASE_URL : String := "Config.API_BASE_URL"

/-- The state a successfully constructed adapter holds (the fields the
constructor passes to `super` plus the optional token store). -/
structure AdaptorState (σ : Type) where
  refreshToken : String
  accessToken : String
  baseUrl : String
  generteAccessTokenConfig : GenerteAccessTokenConfig
  tokenStore : Option σ

/-- An observable outbound effect: an HTTP resource request, or a call to
the token-exchange endpoint with the captured credentials. -/
inductive Effect where
  | http : Request → Effect
  | tokenExchange : GenerteAccessTokenConfig → Effect

/-- The side effects a constructor run performs: the trace is what the body
emits before returning.  The source body only destructures the options,
checks the credentials, stores fields via `super`, and optionally stores the
token store — it never invokes `this.http` or the `generteAccessToken`
closure, so both branches emit the empty trace. -/
def mkApaleoConnectAdaptor {σ : Type} (opts : ApaleoConnectAdaptorOptions σ) :
    Except String (AdaptorState σ) × List Effect :=
  if strFalsy opts.client_id || strFalsy opts.client_secret then
    (Except.error "Apaleo client credentials missing", [])
  else
    (Except.ok
      { refreshToken := opts.refresh_token
        accessToken := opts.access_token.getD ""
        baseUrl := API_BASE_URL
        generteAccessTokenConfig :=
          { client_secret := opts.client_secret.getD ""
            client_id := opts.client_id.getD ""
            redirect_uri := opts.redirect_uri
            refresh := opts.refresh_token }
        tokenStore := opts.tokenStore }, [])

/-! ## Resource methods -/

/-- `getAccount`: `GET /account/v1/accounts/current` with no options object,
returning `res.data` verbatim (the source applies no mapper to it). -/
def getAccount {α : Type} (payload : α) : Request × α :=
  ({ path := "/account/v1/accounts/current", params := emptyObj }, payload)

/-- `getHotels`: `GET /inventory/v1/properties` with the caller bag passed
through, mapping `properties` with `toConnectedHotel` and passing the vendor
`count` through. -/
def getHotels {π η : Type} (toConnectedHotel : π → η) (params : Obj)
    (payload : IApaleoPropertyList π) : Request × IConnected_ListOf η :=
  ({ path := "/inventory/v1/properties", params := params },
   { data := payload.properties.map toConnectedHotel, count := payload.count })

/-- `getHotelById`: `GET /inventory/v1/properties/{id}` with the caller bag
passed through, returning the mapped payload. -/
def getHotelById {π η : Type} (toConnectedHotel : π → η) (id : String)
    (params : Obj) (payload : π) : Request × η :=
  ({ path := "/inventory/v1/properties/" ++ id, params := params },
   toConnectedHotel payload)

/-- `getRoomsTypes`: `GET /inventory/v1/unit-groups` with
`{...params, propertyId: hotelId}`, mapping `unitGroups` and passing `count`
through. -/
def getRoomsTypes {υ τ : Type} (toConnectedRoomType : υ → τ)
    (hotelId : String) (params : Obj) (payload : IApaleoUnitGroupList υ) :
    Request × IConnected_ListOf τ :=
  ({ path := "/inventory/v1/unit-groups",
     params := setKey params "propertyId" hotelId },
   { count := payload.count,
     data := payload.unitGroups.map toConnectedRoomType })

/-- `getRoomTypeById`: `GET /inventory/v1/unit-groups/{id}` with no options
object, returning the mapped payload. -/
def getRoomTypeById {υ τ : Type} (toConnectedRoomType : υ → τ)
    (roomTypeId : String) (payload : υ) : Request × τ :=
  ({ path := "/inventory/v1/unit-groups/" ++ roomTypeId, params := emptyObj },
   toConnectedRoomType payload)

/-- `getRatePlansByHotelId`: `GET /rateplan/v1/rate-plans` with
`{...params, propertyId: hotelId}`, mapping `ratePlans` element-wise with
`toConnectedRatePaln` and passing the vendor `count` through. -/
def getRatePlansByHotelId {ρ ρ' : Type} (toConnectedRatePaln : ρ → ρ')
    (hotelId : String) (params : Obj) (payload : IApaleoRatePlanList ρ) :
    Request × IConnected_ListOf ρ' :=
  ({ path := "/rateplan/v1/rate-plans",
     params := setKey params "propertyId" hotelId },
   { data := payload.ratePlans.map toConnectedRatePaln,
     count := payload.count })

/-- `getRatePlanById`: `GET /rateplan/v1/rate-plans/{id}` with the caller
bag passed through, returning the mapped payload. -/
def getRatePlanById {ρ ρ' : Type} (toConnectedRatePaln : ρ → ρ')
    (ratePlanId : String) (params : Obj) (payload : ρ) : Request × ρ' :=
  ({ path := "/rateplan/v1/rate-plans/" ++ ratePlanId, params := params },
   toConnectedRatePaln payload)

/-- `getRatesByRatePlan`: reads `ratePlan.rates_range.from/.to` while
building the query object, so a missing `rates_range` throws (a `TypeError`,
modelled as `Except.error`) before `this.http.get` is reached — the error
branch carries no `Request`.  Otherwise it spreads the caller bag and then
overrides `from`/`to` with the range taken from the rate plan itself. -/
def getRatesByRatePlan {ρ ρ' : Type} (convertToConnectedRate : ρ → ρ')
    (ratePlan : IConnected_RatePlanLike) (params : Obj)
    (payload : IApaleoRateList ρ) :
    Except String (Request × IConnected_ListOf ρ') :=
  match ratePlan.rates_range with
  | none =>
      Except.error "TypeError: Cannot read properties of undefined"
  | some rr =>
      Except.ok
        ({ path := "/rateplan/v1/rate-plans/" ++ ratePlan.id ++ "/rates",
           params := setKey (setKey params "from" rr.«from») "to" rr.«to» },
         { count := payload.count,
           data := payload.rates.map convertToConnectedRate })

/-- `getCancellationPolicyById`:
`GET /rateplan/v1/cancellation-policies/{id}` — the source passes no options
object, so the `params` argument never reaches the request. -/
def getCancellationPolicyById {χ χ' : Type}
    (toConnectedCancellationPolicy : χ → χ') (cancellationPolicyId : String)
    (params : Obj) (payload : χ) : Request × χ' :=
  ({ path := "/rateplan/v1/cancellation-policies/" ++ cancellationPolicyId,
     params := emptyObj },
   toConnectedCancellationPolicy payload)

/-- `getNoShowPolicyById`: `GET /rateplan/v1/no-show-policies/{id}` with the
caller bag passed through, returning the mapped payload. -/
def getNoShowPolicyById {ν ν' : Type} (toConnectedNoShowPolicy : ν → ν')
    (noShowPolicyId : String) (params : Obj) (payload : ν) : Request × ν' :=
  ({ path := "/rateplan/v1/no-show-policies/" ++ noShowPolicyId,
     params := params },
   toConnectedNoShowPolicy payload)

/-- `getAgeCategories`: `GET /settings/v1/age-categories` with
`{...params, propertyId: hotelId}`, mapping `ageCategories` and passing
`count` through. -/
def getAgeCategories {α α' : Type} (toConnectedAgeCategory : α → α')
    (hotelId : String) (params : Obj) (payload : IApaleoAgeCategoryList α) :
    Request × IConnected_ListOf α' :=
  ({ path := "/settings/v1/age-categories",
     params := setKey params "propertyId" hotelId },
   { data := payload.ageCategories.map toConnectedAgeCategory,
     count := payload.count })

/-- `getAgeCategoryById`: `GET /settings/v1/age-categories/{id}` with
`{...params}` (a copy of the caller bag), returning the mapped payload. -/
def getAgeCategoryById {α α' : Type} (toConnectedAgeCategory : α → α')
    (ageCategoryId : String) (params : Obj) (payload : α) : Request × α' :=
  ({ path := "/settings/v1/age-categories/" ++ ageCategoryId,
     params := params },
   toConnectedAgeCategory payload)

/-- `getServiceById`: `GET /rateplan/v1/services/{id}` — the source passes
no options object, so the `params` argument never reaches the request. -/
def getServiceById {ς ς' : Type} (toConnectedService : ς → ς')
    (serviceId : String) (params : Obj) (payload : ς) : Request × ς' :=
  ({ path := "/rateplan/v1/services/" ++ serviceId, params := emptyObj },
   toConnectedService payload)

/-- `getPromoCodes`: `GET /rateplan/v1/promo-codes/codes` with the options
object `{ params: { propertyId: hotelId } }` — unlike every other list
method the caller bag is NOT spread into it.  Each vendor element maps to
`{code, related_rateplan_ids}` inline, defaulting a falsy
`relatedRateplanIds` to `[]` (an array value is always truthy in JS, so
`some ids ↦ ids`, `none ↦ []` is the exact conditional). -/
def getPromoCodes (hotelId : String) (params : Obj)
    (payload : IApaleoPromoCodeList) :
    Request × IConnected_ListOf IConnected_PromoCode :=
  ({ path := "/rateplan/v1/promo-codes/codes",
     params := setKey emptyObj "propertyId" hotelId },
   { data := payload.promoCodes.map (fun pc =>
       { code := pc.code
         related_rateplan_ids :=
           match pc.relatedRateplanIds with
           | some ids => ids
           | none => [] })
     count := payload.count })

/-! ## Single-flight token refresh (spec §4.2/§5)

Modelled from the spec: the single-flight refresh-and-retry logic of the
base class `RestRequestDriver` (imported from `@cord-travel/pms-connect`,
not present under `src/`).  Spec §5 fixes single-threaded cooperative
concurrency: when N concurrent calls all observe an authorization-expired
response simultaneously, their continuations are already queued and run to
their refresh check before the exchange's network completion event is
processed; the completion event (`Ev.net`) is therefore only enabled once
no caller is still pending.  A caller moves through the phases
pending (has observed the 401, about to run the refresh check) →
waiting (awaiting the shared in-flight exchange; the caller that started
the exchange also awaits it) → ready (unblocked with the fresh token) →
finished (retried the original request once, successfully). -/

namespace SingleFlight

/-- The phase of one concurrent caller in the refresh-and-retry protocol. -/
inductive Phase where
  | pending
  | waiting
  | ready
  | finished
  deriving Repr, DecidableEq

/-- One concurrent caller: its phase and how many times it has retried its
original request. -/
structure Caller where
  phase : Phase
  retries : Nat
  deriving Repr, DecidableEq

/-- The driver-instance state shared by the concurrent callers: whether a
token exchange is in flight, how many `TokenAuthority.exchange` calls have
occurred, and the callers. -/
structure DriverState where
  inFlight : Bool
  exchanges : Nat
  callers : List Caller
  deriving Repr, DecidableEq

/-- A scheduling event: run caller `i`'s next continuation, or deliver the
token-exchange network completion. -/
inductive Ev where
  | step : Nat → Ev
  | net
  deriving Repr, DecidableEq

/-- One event of the cooperative event loop.

* `step i`, caller pending: the refresh check — if an exchange is in
  flight, await it (→ waiting); otherwise start the single exchange
  (`exchanges + 1`, `inFlight := true`) and await it (→ waiting).
* `step i`, caller ready: retry the original request once with the fresh
  token; it succeeds (→ finished, `retries + 1`).
* `net`: the exchange completes — only once every queued refresh check has
  run (no caller pending); all waiting callers unblock (→ ready) and the
  in-flight flag clears.
* Anything else is a no-op (a waiting caller is suspended; a finished
  caller has returned). -/
def act (s : DriverState) : Ev → DriverState
  | Ev.net =>
      if s.inFlight = true ∧ ∀ c ∈ s.callers, c.phase ≠ Phase.pending then
        { s with
          inFlight := false
          callers := s.callers.map fun c =>
            if c.phase = Phase.waiting then { c with phase := Phase.ready }
            else c }
      else s
  | Ev.step i =>
      match s.callers.get? i with
      | none => s
      | some c =>
        match c.phase with
        | Phase.pending =>
            if s.inFlight then
              { s with
                callers := s.callers.set i { c with phase := Phase.waiting } }
            else
              { inFlight := true
                exchanges := s.exchanges + 1
                callers := s.callers.set i { c with phase := Phase.waiting } }
        | Phase.ready =>
            { s with
              callers := s.callers.set i
                { phase := Phase.finished, retries := c.retries + 1 } }
        | Phase.waiting => s
        | Phase.finished => s

/-- Run a schedule of events from a state. -/
def run (sched : List Ev) (s : DriverState) : DriverState :=
  sched.foldl act s

/-- The initial state: no exchange yet, and `n` callers that have each just
observed the authorization-expired response. -/
def init (n : Nat) : DriverState :=
  { inFlight := false
    exchanges := 0
    callers := List.replicate n { phase := Phase.pending, retries := 0 } }

/-- The protocol invariant: at most one exchange ever starts; before the
first exchange everything is pending and nothing is in flight; after the
exchange completes every caller is unblocked or done; an in-flight exchange
is the single exchange; and a caller's retry count is 1 exactly when it has
finished. -/
def Inv (s : DriverState) : Prop :=
  s.exchanges ≤ 1 ∧
  (s.exchanges = 0 →
    s.inFlight = false ∧ ∀ c ∈ s.callers, c.phase = Phase.pending) ∧
  (s.exchanges = 1 → s.inFlight = false →
    ∀ c ∈ s.callers, c.phase = Phase.ready ∨ c.phase = Phase.finished) ∧
  (s.inFlight = true → s.exchanges = 1) ∧
  (∀ c ∈ s.callers,
    (c.phase = Phase.finished → c.retries = 1) ∧
    (c.phase ≠ Phase.finished → c.retries = 0))

/-- The invariant holds in the initial state. -/
theorem inv_init (n : Nat) : Inv (init n) := by
  refine ⟨by simp [init], fun _ => ⟨rfl, fun c hc => ?_⟩,
    fun h => by simp [init] at h, fun h => by simp [init] at h,
    fun c hc => ?_⟩
  · simp only [init] at hc
    simp [List.eq_of_mem_replicate hc]
  · simp only [init] at hc
    have hc' := List.eq_of_mem_replicate hc
    subst hc'
    exact ⟨fun h => (nomatch h), fun _ => rfl⟩

/-- Every event of the cooperative loop preserves the invariant. -/
theorem inv_act {s : DriverState} (hs : Inv s) (ev : Ev) : Inv (act s ev) := by
  obtain ⟨h1, h2, h3, h4, h5⟩ := hs
  cases ev with
  | net =>
    simp only [act]
    split
    case isTrue hg =>
      obtain ⟨hf, hnp⟩ := hg
      have hex : s.exchanges = 1 := h4 hf
      refine ⟨?_, ?_, ?_, ?_, ?_⟩ <;> dsimp only
      · exact h1
      · intro h0
        exact absurd h0 (by omega)
      · intro _ _ c hc
        obtain ⟨c0, hc0, rfl⟩ := List.mem_map.1 hc
        by_cases hw : c0.phase = Phase.waiting
        · rw [if_pos hw]
          exact Or.inl rfl
        · rw [if_neg hw]
          cases hph : c0.phase with
          | pending => exact absurd hph (hnp c0 hc0)
          | waiting => exact absurd hph hw
          | ready => exact Or.inl rfl
          | finished => exact Or.inr rfl
      · intro h
        exact Bool.noConfusion h
      · intro c hc
        obtain ⟨c0, hc0, rfl⟩ := List.mem_map.1 hc
        by_cases hw : c0.phase = Phase.waiting
        · rw [if_pos hw]
          refine ⟨fun h => (nomatch h), fun _ => ?_⟩
          exact (h5 c0 hc0).2 (by simp [hw])
        · rw [if_neg hw]
          exact h5 c0 hc0
    case isFalse =>
      exact ⟨h1, h2, h3, h4, h5⟩
  | step i =>
    simp only [act]
    split
    next => exact ⟨h1, h2, h3, h4, h5⟩
    next c hget =>
      have hcmem : c ∈ s.callers := List.get?_mem hget
      split
      next hph =>
        split
        next hfl =>
          have hex : s.exchanges = 1 := h4 hfl
          refine ⟨?_, ?_, ?_, ?_, ?_⟩ <;> dsimp only
          · exact h1
          · intro h0
            exact absurd h0 (by omega)
          · intro he hfl2
            rw [hfl] at hfl2
            exact Bool.noConfusion hfl2
          · intro _
            exact hex
          · intro d hd
            rcases List.mem_or_eq_of_mem_set hd with hd' | rfl
            · exact h5 d hd'
            · refine ⟨fun h => (nomatch h), fun _ => ?_⟩
              exact (h5 c hcmem).2 (by simp [hph])
        next hfl =>
          have hfl' : s.inFlight = false := by simpa using hfl
          have hze : s.exchanges = 0 := by
            by_contra hne
            have hone : s.exchanges = 1 := by omega
            rcases h3 hone hfl' c hcmem with hr | hr <;> simp [hph] at hr
          refine ⟨?_, ?_, ?_, ?_, ?_⟩ <;> dsimp only
          · omega
          · intro h0
            exact absurd h0 (by omega)
          · intro _ hfl2
            exact Bool.noConfusion hfl2
          · intro _
            omega
          · intro d hd
            rcases List.mem_or_eq_of_mem_set hd with hd' | rfl
            · exact h5 d hd'
            · refine ⟨fun h => (nomatch h), fun _ => ?_⟩
              exact (h5 c hcmem).2 (by simp [hph])
      next hph =>
        have hnz : s.exchanges ≠ 0 := by
          intro h0
          have hp := (h2 h0).2 c hcmem
          simp [hph] at hp
        refine ⟨?_, ?_, ?_, ?_, ?_⟩ <;> dsimp only
        · exact h1
        · intro h0
          exact absurd h0 hnz
        · intro he hfl2 d hd
          rcases List.mem_or_eq_of_mem_set hd with hd' | rfl
          · exact h3 he hfl2 d hd'
          · exact Or.inr rfl
        · exact h4
        · intro d hd
          rcases List.mem_or_eq_of_mem_set hd with hd' | rfl
          · exact h5 d hd'
          · refine ⟨fun _ => ?_, fun hne => absurd rfl hne⟩
            have hr0 : c.retries = 0 := (h5 c hcmem).2 (by simp [hph])
            simp [hr0]
      next => exact ⟨h1, h2, h3, h4, h5⟩
      next => exact ⟨h1, h2, h3, h4, h5⟩

/-- The invariant holds after any schedule. -/
theorem inv_run (sched : List Ev) (s : DriverState) (hs : Inv s) :
    Inv (run sched s) := by
  induction sched generalizing s with
  | nil => exact hs
  | cons e rest ih => exact ih (act s e) (inv_act hs e)

/-- One event never adds or removes callers. -/
theorem act_callers_length (s : DriverState) (ev : Ev) :
    (act s ev).callers.length = s.callers.length := by
  cases ev with
  | net =>
    simp only [act]
    split
    · simp
    · rfl
  | step i =>
    simp only [act]
    split
    next => rfl
    next c _ =>
      split
      next => split <;> simp [List.length_set]
      next => simp [List.length_set]
      next => rfl
      next => rfl

/-- A schedule never adds or removes callers. -/
theorem run_callers_length (sched : List Ev) (s : DriverState) :
    (run sched s).callers.length = s.callers.length := by
  induction sched generalizing s with
  | nil => rfl
  | cons e rest ih => rw [run, List.foldl_cons, ← run, ih, act_callers_length]

/-- C2 (spec-modelled single-flight driver): for every positive number of
concurrent callers that observe the authorization-expired response
simultaneously and every event-loop schedule under which they all complete,
exactly one token-exchange call occurs and every caller succeeds after
exactly one retry. -/
theorem single_flight_refresh (n : Nat) (sched : List Ev) (hn : 0 < n)
    (hdone : ∀ c ∈ (run sched (init n)).callers, c.phase = Phase.finished) :
    (run sched (init n)).exchanges = 1 ∧
      ∀ c ∈ (run sched (init n)).callers, c.retries = 1 := by
  obtain ⟨h1, h2, h3, h4, h5⟩ := inv_run sched (init n) (inv_init n)
  have hlen : (run sched (init n)).callers.length = n := by
    rw [run_callers_length]
    simp [init]
  obtain ⟨c, hc⟩ := List.exists_mem_of_length_pos
    (show 0 < (run sched (init n)).callers.length by omega)
  refine ⟨?_, fun d hd => (h5 d hd).1 (hdone d hd)⟩
  rcases Nat.eq_zero_or_pos (run sched (init n)).exchanges with h0 | hpos
  · have hp := (h2 h0).2 c hc
    rw [hdone c hc] at hp
    cases hp
  · omega

/-- Witness for C2: two callers under the schedule
`[step 0, step 1, net, step 0, step 1]` all finish, with exactly one
exchange and one retry each. -/
theorem single_flight_refresh_witness :
    0 < 2 ∧
    ((run [Ev.step 0, Ev.step 1, Ev.net, Ev.step 0, Ev.step 1]
        (init 2)).exchanges = 1 ∧
      ∀ c ∈ (run [Ev.step 0, Ev.step 1, Ev.net, Ev.step 0, Ev.step 1]
          (init 2)).callers, c.retries = 1) :=
  ⟨by decide, single_flight_refresh 2 _ (by decide) (by decide)⟩

end SingleFlight

/-! ## Theorems for the claims -/

/-- C1: for every options record in which `client_id` or `client_secret` is
null or the empty string (JS-falsy), construction fails with the
configuration error and the constructor's effect trace is empty — no HTTP
request and no token exchange is issued. -/
theorem constructor_missing_credentials_fails_fast {σ : Type}
    (opts : ApaleoConnectAdaptorOptions σ)
    (h : strFalsy opts.client_id = true ∨ strFalsy opts.client_secret = true) :
    mkApaleoConnectAdaptor opts =
      (Except.error "Apaleo client credentials missing", []) := by
  obtain h | h := h <;> simp [mkApaleoConnectAdaptor, h]

/-- Witness for C1: a null `client_id` and an empty-string `client_secret`
each make construction fail with no effects. -/
theorem constructor_missing_credentials_fails_fast_witness :
    mkApaleoConnectAdaptor (σ := Unit)
      { refresh_token := "rt-1", access_token := none, client_id := none,
        client_secret := some "secret-1", redirect_uri := none,
        tokenStore := none }
      = (Except.error "Apaleo client credentials missing", []) ∧
    mkApaleoConnectAdaptor (σ := Unit)
      { refresh_token := "rt-1", access_token := some "at-0",
        client_id := some "cid-1", client_secret := some "",
        redirect_uri := some "uri", tokenStore := none }
      = (Except.error "Apaleo client credentials missing", []) :=
  ⟨constructor_missing_credentials_fails_fast _ (Or.inl rfl),
   constructor_missing_credentials_fails_fast _ (Or.inr (by decide))⟩

/-- C3: `getRatePlansByHotelId` passes the vendor-reported `count` through
verbatim and returns the vendor `ratePlans` array mapped element-wise by
the rate-plan mapper, order preserved (`List.map` preserves order). -/
theorem getRatePlansByHotelId_count_and_map {ρ ρ' : Type}
    (toConnectedRatePaln : ρ → ρ') (hotelId : String) (params : Obj)
    (payload : IApaleoRatePlanList ρ) :
    (getRatePlansByHotelId toConnectedRatePaln hotelId params
        payload).2.count = payload.count ∧
    (getRatePlansByHotelId toConnectedRatePaln hotelId params
        payload).2.data = payload.ratePlans.map toConnectedRatePaln :=
  ⟨rfl, rfl⟩

/-- Counterexample for C4: the claim quantifies over every vendor payload,
but the code never recomputes or checks `count`, so a payload reporting
`count = 0` alongside a one-element page yields `data.length = 1 > 0 =
count`. -/
theorem getHotels_count_not_bound_cx :
    ¬ ((getHotels (fun _ : Unit => ()) emptyObj
          { properties := [()], count := 0 }).2.data.length ≤
        (getHotels (fun _ : Unit => ()) emptyObj
          { properties := [()], count := 0 }).2.count) := by
  decide

/-- C4 (amended): `count` equals the vendor-reported total verbatim for
every payload; `data.length ≤ count` holds whenever the vendor payload is
well-formed, i.e. its reported total is at least the length of the returned
page (shown for the two cited list endpoints, `getHotels` and
`getPromoCodes`). -/
theorem list_count_passthrough_and_bound {π η : Type} (m : π → η)
    (params pparams : Obj) (hotelId : String) (pl : IApaleoPropertyList π)
    (pcl : IApaleoPromoCodeList)
    (h1 : pl.properties.length ≤ pl.count)
    (h2 : pcl.promoCodes.length ≤ pcl.count) :
    ((getHotels m params pl).2.count = pl.count ∧
      (getHotels m params pl).2.data.length ≤
        (getHotels m params pl).2.count) ∧
    ((getPromoCodes hotelId pparams pcl).2.count = pcl.count ∧
      (getPromoCodes hotelId pparams pcl).2.data.length ≤
        (getPromoCodes hotelId pparams pcl).2.count) := by
  refine ⟨⟨rfl, ?_⟩, ⟨rfl, ?_⟩⟩
  · simpa [getHotels] using h1
  · simpa [getPromoCodes] using h2

/-- Witness for C4's amended theorem at a concrete well-formed payload. -/
theorem list_count_passthrough_and_bound_witness :
    ((getHotels (fun _ : Unit => ()) emptyObj
        { properties := [()], count := 3 }).2.count = 3 ∧
      (getHotels (fun _ : Unit => ()) emptyObj
        { properties := [()], count := 3 }).2.data.length ≤
        (getHotels (fun _ : Unit => ()) emptyObj
          { properties := [()], count := 3 }).2.count) ∧
    ((getPromoCodes "HOTEL-1" emptyObj
        { promoCodes := [{ code := "SUMMER", relatedRateplanIds := none }],
          count := 2 }).2.count = 2 ∧
      (getPromoCodes "HOTEL-1" emptyObj
        { promoCodes := [{ code := "SUMMER", relatedRateplanIds := none }],
          count := 2 }).2.data.length ≤
        (getPromoCodes "HOTEL-1" emptyObj
          { promoCodes := [{ code := "SUMMER", relatedRateplanIds := none }],
            count := 2 }).2.count) :=
  list_count_passthrough_and_bound _ _ _ _ _ _ (by decide) (by decide)

/-- C5: `getRatesByRatePlan` with a rate plan lacking `rates_range` fails
before any vendor call (the error branch carries no request); with a range
present, the outgoing request's `from`/`to` parameters come from the rate
plan's own `rates_range`, overriding anything in the caller bag. -/
theorem getRatesByRatePlan_range_precondition {ρ ρ' : Type}
    (convertToConnectedRate : ρ → ρ') (ratePlan : IConnected_RatePlanLike)
    (params : Obj) (payload : IApaleoRateList ρ) :
    (ratePlan.rates_range = none →
      getRatesByRatePlan convertToConnectedRate ratePlan params payload =
        Except.error "TypeError: Cannot read properties of undefined") ∧
    (∀ rr, ratePlan.rates_range = some rr →
      ∃ req res,
        getRatesByRatePlan convertToConnectedRate ratePlan params payload =
          Except.ok (req, res) ∧
        req.params "from" = some rr.«from» ∧
        req.params "to" = some rr.«to») := by
  obtain ⟨rpid, rrange⟩ := ratePlan
  constructor
  · rintro rfl
    rfl
  · rintro rr rfl
    refine ⟨_, _, rfl, ?_, ?_⟩ <;> simp [setKey]

/-- Witness for C5: a rate plan without a range fails; one with the range
`2024-01-01 … 2024-01-31` sends exactly those `from`/`to` parameters. -/
theorem getRatesByRatePlan_range_precondition_witness :
    (getRatesByRatePlan (fun u : Unit => u)
        { id := "RP-1", rates_range := none } emptyObj
        { rates := [], count := 0 } =
      Except.error "TypeError: Cannot read properties of undefined") ∧
    (∃ req res,
      getRatesByRatePlan (fun u : Unit => u)
          { id := "RP-1",
            rates_range := some { «from» := "2024-01-01",
                                  «to» := "2024-01-31" } } emptyObj
          { rates := [], count := 0 } =
        Except.ok (req, res) ∧
      req.params "from" = some "2024-01-01" ∧
      req.params "to" = some "2024-01-31") :=
  ⟨(getRatesByRatePlan_range_precondition _ _ _ _).1 rfl,
   (getRatesByRatePlan_range_precondition _ _ _ _).2
     { «from» := "2024-01-01", «to» := "2024-01-31" } rfl⟩

/-- Counterexample for C6: `getPromoCodes` does not spread the caller bag
into the request (unlike every other list method): with a caller bag
carrying `onlyActive = "true"`, the outgoing request answers `none` at
`onlyActive`. -/
theorem getPromoCodes_drops_params_cx :
    (getPromoCodes "HOTEL-1" (setKey emptyObj "onlyActive" "true")
        { promoCodes := [], count := 0 }).1.params "onlyActive" = none ∧
    (setKey emptyObj "onlyActive" "true") "onlyActive" = some "true" := by
  constructor <;> decide

/-- C6 (amended): list methods other than `getPromoCodes` merge the caller
bag with the scoping parameter (shown for the cited `getRoomsTypes`:
every non-`propertyId` key answers the caller's entry, and `propertyId`
answers the hotel id); `getPromoCodes` ignores the caller bag and sends
only `propertyId = hotelId`. -/
theorem list_params_merge_except_promo_codes {υ τ : Type} (m : υ → τ)
    (hotelId : String) (params : Obj) (k : String)
    (pl : IApaleoUnitGroupList υ) (pcl : IApaleoPromoCodeList) :
    ((getRoomsTypes m hotelId params pl).1.params k =
      if k = "propertyId" then some hotelId else params k) ∧
    ((getPromoCodes hotelId params pcl).1.params k =
      if k = "propertyId" then some hotelId else none) :=
  ⟨rfl, rfl⟩

/-- C7: the inline promo-code mapping is total — position by position, the
returned page holds an entry exactly where the vendor page does, with the
vendor's `code` and with `related_rateplan_ids` equal to the vendor's
`relatedRateplanIds` when present and `[]` when absent; no input makes it
fail. -/
theorem getPromoCodes_mapping_total (hotelId : String) (params : Obj)
    (payload : IApaleoPromoCodeList) (i : Nat) :
    (getPromoCodes hotelId params payload).2.data.get? i =
      (payload.promoCodes.get? i).map (fun pc =>
        { code := pc.code
          related_rateplan_ids :=
            match pc.relatedRateplanIds with
            | some ids => ids
            | none => [] }) := by
  simp [getPromoCodes, List.get?_map]

/-- Counterexample for C8: `getAccount` returns `res.data` — the raw vendor
payload — verbatim, refuting "never … returned as the raw vendor shape";
no account mapper exists in the source (none is even imported). -/
theorem getAccount_returns_raw_cx :
    (getAccount "raw-apaleo-account-payload").2 =
      "raw-apaleo-account-payload" :=
  rfl

/-- C8 (amended): every single-entity method except `getAccount` returns
exactly its resource mapper applied to the vendor payload; `getAccount`
alone returns the vendor payload unmapped. -/
theorem mapper_application_except_account :
    (∀ (α : Type) (payload : α), (getAccount payload).2 = payload) ∧
    (∀ (π η : Type) (m : π → η) (id : String) (params : Obj) (p : π),
      (getHotelById m id params p).2 = m p) ∧
    (∀ (υ τ : Type) (m : υ → τ) (id : String) (p : υ),
      (getRoomTypeById m id p).2 = m p) ∧
    (∀ (ρ ρ' : Type) (m : ρ → ρ') (id : String) (params : Obj) (p : ρ),
      (getRatePlanById m id params p).2 = m p) ∧
    (∀ (χ χ' : Type) (m : χ → χ') (id : String) (params : Obj) (p : χ),
      (getCancellationPolicyById m id params p).2 = m p) ∧
    (∀ (ν ν' : Type) (m : ν → ν') (id : String) (params : Obj) (p : ν),
      (getNoShowPolicyById m id params p).2 = m p) ∧
    (∀ (α α' : Type) (m : α → α') (id : String) (params : Obj) (p : α),
      (getAgeCategoryById m id params p).2 = m p) ∧
    (∀ (ς ς' : Type) (m : ς → ς') (id : String) (params : Obj) (p : ς),
      (getServiceById m id params p).2 = m p) :=
  ⟨fun _ _ => rfl, fun _ _ _ _ _ _ => rfl, fun _ _ _ _ _ => rfl,
   fun _ _ _ _ _ _ => rfl, fun _ _ _ _ _ _ => rfl, fun _ _ _ _ _ _ => rfl,
   fun _ _ _ _ _ _ => rfl, fun _ _ _ _ _ _ => rfl⟩

/-- C9: the mandatory scoping parameter wins over any caller-supplied one —
the spread puts `propertyId` after the caller bag, so for every caller bag
(including one that itself binds `propertyId`) the outgoing request's
`propertyId` equals the hotel-id argument, for all three cited methods. -/
theorem scoping_param_overrides_caller {υ τ ρ ρ' α α' : Type} (m1 : υ → τ)
    (m2 : ρ → ρ') (m3 : α → α') (hotelId : String) (params : Obj)
    (p1 : IApaleoUnitGroupList υ) (p2 : IApaleoRatePlanList ρ)
    (p3 : IApaleoAgeCategoryList α) :
    (getRoomsTypes m1 hotelId params p1).1.params "propertyId" =
      some hotelId ∧
    (getRatePlansByHotelId m2 hotelId params p2).1.params "propertyId" =
      some hotelId ∧
    (getAgeCategories m3 hotelId params p3).1.params "propertyId" =
      some hotelId := by
  refine ⟨?_, ?_, ?_⟩ <;> simp [getRoomsTypes, getRatePlansByHotelId,
    getAgeCategories, setKey]

/-- C10: `getServiceById` and `getCancellationPolicyById` ignore their
`params` argument entirely — two calls with different bags produce the same
request-and-result pair, and the outgoing request carries no query
parameter at any key. -/
theorem byId_params_ignored {ς ς' χ χ' : Type} (ms : ς → ς') (mc : χ → χ')
    (serviceId cancellationPolicyId : String) (p1 p2 : Obj) (ps : ς)
    (pc : χ) :
    getServiceById ms serviceId p1 ps = getServiceById ms serviceId p2 ps ∧
    getCancellationPolicyById mc cancellationPolicyId p1 pc =
      getCancellationPolicyById mc cancellationPolicyId p2 pc ∧
    (∀ k, (getServiceById ms serviceId p1 ps).1.params k = none) ∧
    (∀ k, (getCancellationPolicyById mc cancellationPolicyId p1 pc).1.params
      k = none) :=
  ⟨rfl, rfl, fun _ => rfl, fun _ => rfl⟩

end PmsConnectApaleo
